import Mathlib

/-!
Shallow embedding of the comment-to-DM pipeline of the Dmtest repository
(`src/app/models.py`, `src/app/instagram/webhooks.py`, `src/app/workers/tasks.py`).

Modelling conventions:
* The SQLAlchemy tables are lists of records; a database state is the
  `DB` structure.  `query(...).first()` is `List.find?` in list order and
  `query(...).all()` is `List.filter`; the ORM identity map is modelled by
  updating every list entry sharing the primary key (keys are unique in any
  reachable state).
* `datetime.utcnow()` is an `Int` parameter `now`; `DateTime` columns are
  `Int` timestamps.  The nullable `trial_end_date` / `subscription_end_date`
  columns are modelled non-null (every registered user gets them; a NULL
  value would make the Python comparison raise, a state outside this model).
* Python truthiness on nullable string columns collapses `None` and `""`;
  nullable strings are `Option String` and truthiness is tested explicitly.
* HMAC-SHA256 is abstracted as a function parameter `hmacHex` from the raw
  body to the hex digest; `hmac.compare_digest` is extensionally equality
  (its constant-time execution is a timing property with no extensional
  content).  `json.loads` is abstracted as an `Option (List WebhookEntry)`
  parameter: `none` models a body raising `JSONDecodeError`.
* The Celery task (`bind=True, max_retries=3`) is a function of the
  committed database state; `self.retry` raises `Retry` while
  `self.request.retries < 3` and otherwise `MaxRetriesExceededError` (or the
  passed exception).  An exception reaching the task's outer `except`
  performs `db.rollback()`, so only states reached by `db.commit()` survive.
* Calls into the Instagram Delivery Client are recorded in an output trace;
  the outcome of `send_message` is the parameter `SendResult`,
  `random.choice` over reply options is the index parameter `rchoice`.
-/

namespace Dmtest

inductive SubscriptionStatus where
  | trial
  | active
  | expired
  | cancelled
  | payment_failed
deriving DecidableEq, Repr

inductive AutomationStatus where
  | active
  | paused
  | disabled
deriving DecidableEq, Repr

inductive DMStatus where
  | pending
  | sent
  | failed
deriving DecidableEq, Repr

/-- `app.models.User`, restricted to the columns the pipeline reads. -/
structure User where
  id : Nat
  is_active : Bool
  subscription_status : SubscriptionStatus
  trial_end_date : Int
  subscription_end_date : Int
  encrypted_access_token : Option String
deriving DecidableEq, Repr

/-- `User.is_subscription_active` (`src/app/models.py:90`). -/
def User.is_subscription_active (u : User) (now : Int) : Bool :=
  match u.subscription_status with
  | .trial => decide (now ≤ u.trial_end_date)
  | .active => decide (now ≤ u.subscription_end_date)
  | _ => false

/-- `User.can_use_automation` (`src/app/models.py:98`). -/
def User.can_use_automation (u : User) (now : Int) : Bool :=
  u.is_active && u.is_subscription_active now

/-- `app.models.Automation`, restricted to the columns the pipeline reads. -/
structure Automation where
  id : Nat
  user_id : Nat
  instagram_media_id : Option String
  keywords : List String
  case_sensitive : Bool
  message_text : String
  message_media_url : Option String
  comment_reply_options : List String
  status : AutomationStatus
  total_comments_processed : Int
  total_dms_sent : Int
  total_dms_failed : Int
  total_dms_pending : Int
deriving DecidableEq, Repr

/-- `app.models.DMLog` — the DispatchRecord of the specification. -/
structure DMLog where
  id : Nat
  user_id : Nat
  automation_id : Nat
  instagram_commenter_id : String
  instagram_commenter_username : Option String
  comment_id : Option String
  comment_text : String
  matched_keyword : Option String
  dm_status : DMStatus
  message_sent : String
  instagram_message_id : Option String
  error_message : Option String
  retry_count : Nat
  sent_at : Option Int
  failed_at : Option Int
deriving DecidableEq, Repr

/-- `app.models.RateLimitTracker` — the RateLimitWindow of the specification. -/
structure RateLimitTracker where
  id : Nat
  user_id : Nat
  action_type : String
  count : Nat
  window_start : Int
  window_end : Int
deriving DecidableEq, Repr

/-- The comment payload of a `changes` entry (`value` dict of the webhook). -/
structure CommentValue where
  id : Option String
  text : String
  media_id : Option String
  from_id : Option String
  from_username : Option String
deriving DecidableEq, Repr

/-- One element of an entry's `changes` list.  A missing `value` key models a
dict on which `change["value"]` raises `KeyError`. -/
structure CommentChange where
  fieldName : String
  value : Option CommentValue
deriving DecidableEq, Repr

/-- One element of the payload's `entry` list.  The `messaging` events
(`process_dm_event`) read fields and `return`/`pass` without any database
effect, so they are omitted from the model. -/
structure WebhookEntry where
  changes : List CommentChange
deriving DecidableEq, Repr

/-- `app.models.WebhookLog` — the WebhookAuditRecord of the specification. -/
structure WebhookLog where
  id : Nat
  webhook_type : String
  payload : List WebhookEntry
  processed : Bool
  error_message : Option String
deriving DecidableEq, Repr

/-- The committed database state. -/
structure DB where
  users : List User
  automations : List Automation
  dm_logs : List DMLog
  trackers : List RateLimitTracker
  webhook_logs : List WebhookLog
  next_dm_id : Nat
  next_webhook_id : Nat
deriving DecidableEq, Repr

/-- ORM-style update of the `dm_logs` row with the given primary key. -/
def DB.updateLog (db : DB) (i : Nat) (f : DMLog → DMLog) : DB :=
  { db with dm_logs := db.dm_logs.map fun l => if l.id == i then f l else l }

/-- ORM-style update of the `automations` row with the given primary key. -/
def DB.updateAutomation (db : DB) (i : Nat) (f : Automation → Automation) : DB :=
  { db with automations := db.automations.map fun a => if a.id == i then f a else a }

/-- ORM-style update of the `webhook_logs` row with the given primary key. -/
def DB.updateWebhookLog (db : DB) (i : Nat) (f : WebhookLog → WebhookLog) : DB :=
  { db with webhook_logs := db.webhook_logs.map fun l => if l.id == i then f l else l }

/-- ORM-style update of the first `trackers` row satisfying the filter. -/
def updateFirst (p : α → Bool) (f : α → α) : List α → List α
  | [] => []
  | x :: xs => if p x then f x :: xs else x :: updateFirst p f xs

/-- Python's truthiness test on a nullable string column: `None` and the
empty string are falsy. -/
def truthy : Option String → Bool
  | none => false
  | some s => !(s == "")

/-- Python's substring test `needle in haystack` on the underlying
character lists (true for an empty needle). -/
def listContains (needle : List Char) : List Char → Bool
  | [] => needle.isEmpty
  | c :: rest => needle.isPrefixOf (c :: rest) || listContains needle rest

/-- The case folding of `check_keyword_match`: the identity when
`case_sensitive`, otherwise `str.lower` (modelled per-character). -/
def foldCase (case_sensitive : Bool) (l : List Char) : List Char :=
  if case_sensitive then l else l.map Char.toLower

/-- `check_keyword_match` (`src/app/instagram/webhooks.py:213`): case-folds
text and keyword when `case_sensitive` is false and returns the first
keyword of the ordered list that occurs as a substring of the text. -/
def check_keyword_match (text : String) (keywords : List String)
    (case_sensitive : Bool) : Option String :=
  let search_text := foldCase case_sensitive text.data
  keywords.find? fun keyword =>
    listContains (foldCase case_sensitive keyword.data) search_text

/-- `settings.DM_RATE_LIMIT_PER_DAY` (`src/app/config.py:55`). -/
def DM_RATE_LIMIT_PER_DAY : Nat := 100

/-- `check_rate_limit` (`src/app/workers/tasks.py:337`): for `"dm_send"`,
look up the first non-expired window of the user and refuse only when its
count has reached the ceiling; any other action kind is always allowed. -/
def check_rate_limit (user_id : Nat) (action_type : String) (db : DB)
    (now : Int) : Bool :=
  if action_type == "dm_send" then
    match db.trackers.find? fun t =>
        t.user_id == user_id && t.action_type == action_type
          && decide (now < t.window_end) with
    | some tracker => !(decide (DM_RATE_LIMIT_PER_DAY ≤ tracker.count))
    | none => true
  else true

/-- `track_rate_limit` (`src/app/workers/tasks.py:354`): increment the first
active window or open a fresh one ending a day later (this helper commits). -/
def track_rate_limit (user_id : Nat) (action_type : String) (db : DB)
    (now : Int) : DB :=
  let p := fun (t : RateLimitTracker) =>
    t.user_id == user_id && t.action_type == action_type
      && decide (now < t.window_end)
  match db.trackers.find? p with
  | some _ =>
      { db with trackers := updateFirst p (fun t => { t with count := t.count + 1 }) db.trackers }
  | none =>
      { db with trackers := db.trackers ++
          [{ id := 0, user_id := user_id, action_type := action_type,
             count := 1, window_start := now, window_end := now + 86400 }] }

/-- Result of `InstagramAPIClient.send_message` as seen by the worker: either
a response dict carrying the platform message id, or a raised exception whose
`str` is the message. -/
inductive SendResult where
  | ok (message_id : Option String)
  | err (msg : String)
deriving DecidableEq, Repr

/-- A call made to the Delivery Client, recorded as an output trace. -/
inductive ClientCall where
  | sendMessage (recipient_id : String) (message_text : String)
      (media_url : Option String) (comment_id : Option String)
  | replyToComment (comment_id : Option String) (text : String)
deriving DecidableEq, Repr

/-- How one execution of the Celery task terminates, as the queue sees it. -/
inductive Outcome where
  /-- The task returned (possibly after committing). -/
  | completed
  /-- `self.retry` raised `Retry`; the job is rescheduled after `countdown`
  seconds. -/
  | retry (countdown : Nat)
  /-- `self.retry` was called with `self.request.retries` already at
  `max_retries = 3` and no stored exception: `MaxRetriesExceededError`. -/
  | maxRetriesExceeded
  /-- An exception propagated out of the task (after the outer
  `db.rollback()`); the job is not rescheduled. -/
  | error (msg : String)
deriving DecidableEq, Repr

/-- `self.retry(countdown=...)` under `max_retries = 3`: raises `Retry`
while fewer than 3 retries have happened, else re-raises the stored
exception (when one was passed) or `MaxRetriesExceededError`. -/
def retryOutcome (retries : Nat) (countdown : Nat) (exc : Option String) : Outcome :=
  if retries < 3 then .retry countdown
  else match exc with
    | some m => .error m
    | none => .maxRetriesExceeded

/-- `process_comment_and_send_dm` (`src/app/workers/tasks.py:47`), the
Delivery Worker dispatch task, as a function of the committed database
state.  Returns the committed state after the execution, the outcome the
queue observes, and the trace of Delivery Client calls.  Mutations raised
past the outer `except` (in particular every `raise self.retry(...)`) are
rolled back, so such paths return the state committed so far. -/
def process_comment_and_send_dm (db : DB) (dm_log_id : Nat) (now : Int)
    (retries : Nat) (sendResult : SendResult) (rchoice : Nat) :
    DB × Outcome × List ClientCall :=
  match db.dm_logs.find? fun l => l.id == dm_log_id with
  | none => (db, .completed, [])
  | some dm_log =>
    -- duplicate check: any other log for the same comment already SENT
    let dup : Option DMLog :=
      match dm_log.comment_id with
      | some cid =>
          if cid == "" then none
          else db.dm_logs.find? fun l =>
            l.comment_id == some cid && l.dm_status == DMStatus.sent
              && !(l.id == dm_log_id)
      | none => none
    match dup with
    | some _ =>
        (db.updateLog dm_log_id (fun l =>
           { l with dm_status := .failed,
                    error_message := some "Duplicate: DM already sent for this comment",
                    failed_at := some now }),
         .completed, [])
    | none =>
      match db.users.find? fun u => u.id == dm_log.user_id with
      | none => (db, .error "AttributeError", [])
      | some user =>
        let automation? := db.automations.find? fun a => a.id == dm_log.automation_id
        if !(user.can_use_automation now) then
          match automation? with
          | none => (db, .error "AttributeError", [])
          | some _ =>
              ((db.updateLog dm_log_id (fun l =>
                  { l with dm_status := .failed,
                           error_message := some "Subscription expired",
                           failed_at := some now })).updateAutomation dm_log.automation_id
                 (fun a => { a with total_dms_failed := a.total_dms_failed + 1,
                                    total_dms_pending := a.total_dms_pending - 1 }),
               .completed, [])
        else if !(check_rate_limit user.id "dm_send" db now) then
          -- raise self.retry(countdown=3600): nothing committed yet
          (db, retryOutcome retries 3600 none, [])
        else if !(truthy user.encrypted_access_token) then
          match automation? with
          | none => (db, .error "AttributeError", [])
          | some _ =>
              ((db.updateLog dm_log_id (fun l =>
                  { l with dm_status := .failed,
                           error_message := some "Instagram not connected",
                           failed_at := some now })).updateAutomation dm_log.automation_id
                 (fun a => { a with total_dms_failed := a.total_dms_failed + 1,
                                    total_dms_pending := a.total_dms_pending - 1 }),
               .completed, [])
        else
          match automation? with
          | none => (db, .error "AttributeError", [])
          | some automation =>
            let sendCall := ClientCall.sendMessage dm_log.instagram_commenter_id
              dm_log.message_sent automation.message_media_url dm_log.comment_id
            match sendResult with
            | .ok mid =>
                let db1 := (db.updateLog dm_log_id (fun l =>
                    { l with dm_status := .sent,
                             instagram_message_id := mid,
                             sent_at := some now })).updateAutomation dm_log.automation_id
                  (fun a => { a with total_dms_sent := a.total_dms_sent + 1,
                                     total_dms_pending := a.total_dms_pending - 1 })
                -- track_rate_limit commits the transaction
                let db2 := track_rate_limit user.id "dm_send" db1 now
                let opts := automation.comment_reply_options
                let calls :=
                  if opts.length > 0 then
                    [sendCall, .replyToComment dm_log.comment_id (opts.getD (rchoice % opts.length) "")]
                  else [sendCall]
                (db2, .completed, calls)
            | .err msg =>
                let newRetryCount := dm_log.retry_count + 1
                if newRetryCount < 3 then
                  -- raise self.retry(countdown=300*retry_count, exc=e):
                  -- the outer except rolls the session back before re-raising
                  (db, retryOutcome retries (300 * newRetryCount) (some msg), [sendCall])
                else
                  ((db.updateLog dm_log_id (fun l =>
                      { l with dm_status := .failed,
                               error_message := some msg,
                               failed_at := some now,
                               retry_count := l.retry_count + 1 })).updateAutomation dm_log.automation_id
                     (fun a => { a with total_dms_failed := a.total_dms_failed + 1,
                                        total_dms_pending := a.total_dms_pending - 1 }),
                   .completed, [sendCall])

/-- The `sha256=` marker of the `X-Hub-Signature-256` header. -/
def sigMarker : List Char := ['s', 'h', 'a', '2', '5', '6', '=']

/-- Characters of a list up to (excluding) the first occurrence of the
separator, or the whole list when the separator does not occur; this is the
second element of Python's `s.split(sep)` once `s` starts with `sep`. -/
def takeUntilSep (sep : List Char) : List Char → List Char
  | [] => []
  | c :: rest =>
      if sep.isPrefixOf (c :: rest) then []
      else c :: takeUntilSep sep rest

/-- `verify_webhook_signature` (`src/app/instagram/webhooks.py:98`):
`hmacHex` stands for the HMAC-SHA256 hex digest keyed with
`settings.META_APP_SECRET` over the raw body.  A header without the
`sha256=` marker as a literal character-level position-0 match is rejected;
otherwise the segment of the header between the leading marker and its next
occurrence (Python's `signature.split("sha256=")[1]`) is compared, via the
extensional content of `hmac.compare_digest`, with the digest. -/
def verify_webhook_signature (hmacHex : String → String) (payload : String)
    (signature : String) : Bool :=
  if sigMarker.isPrefixOf signature.data then
    takeUntilSep sigMarker (signature.data.drop sigMarker.length)
      == (hmacHex payload).data
  else false

/-- The dedup filter of `process_comment_webhook`
(`src/app/instagram/webhooks.py:181`): a live (pending or sent)
DispatchRecord of a given (automation, commenter) pair. -/
def liveFor (automation_id : Nat) (commenter_id : String) (l : DMLog) : Bool :=
  l.automation_id == automation_id && l.instagram_commenter_id == commenter_id
    && (l.dm_status == DMStatus.sent || l.dm_status == DMStatus.pending)

/-- Any DispatchRecord of a given (automation, commenter) pair, live or not. -/
def logFor (automation_id : Nat) (commenter_id : String) (l : DMLog) : Bool :=
  l.automation_id == automation_id && l.instagram_commenter_id == commenter_id

/-- The fresh DispatchRecord `process_comment_webhook` creates
(`src/app/instagram/webhooks.py:190`): status `pending`, the matched keyword
and a snapshot of the automation's message text. -/
def newDMLog (dm_id : Nat) (a : Automation) (comment_id comment_text commenter_id : String)
    (commenter_username : Option String) (kw : String) : DMLog :=
  { id := dm_id, user_id := a.user_id, automation_id := a.id,
    instagram_commenter_id := commenter_id,
    instagram_commenter_username := commenter_username,
    comment_id := some comment_id, comment_text := comment_text,
    matched_keyword := some kw, dm_status := .pending,
    message_sent := a.message_text, instagram_message_id := none,
    error_message := none, retry_count := 0, sent_at := none, failed_at := none }

/-- Loop body of `process_comment_webhook` (`src/app/instagram/webhooks.py:168`)
over the snapshot of active automations targeting the commented-on media.
Each iteration commits its own changes, so the returned state is committed;
the `Bool` is false when an automation with a dangling owner reference made
`automation.user.can_use_automation()` raise, aborting the remaining
iterations. -/
def processAutomations (now : Int) (comment_id : String) (comment_text : String)
    (commenter_id : String) (commenter_username : Option String) :
    List Automation → DB → DB × List Nat × Bool
  | [], db => (db, [], true)
  | a :: rest, db =>
    match db.users.find? fun u => u.id == a.user_id with
    | none => (db, [], false)
    | some u =>
      if !(u.can_use_automation now) then
        processAutomations now comment_id comment_text commenter_id commenter_username
          rest (db.updateAutomation a.id (fun x => { x with status := .disabled }))
      else
        match check_keyword_match comment_text a.keywords a.case_sensitive with
        | none =>
            processAutomations now comment_id comment_text commenter_id commenter_username rest db
        | some kw =>
          -- Python truthiness of `if matched_keyword:`: a matched empty
          -- string is falsy and the automation is skipped
          if kw == "" then
            processAutomations now comment_id comment_text commenter_id commenter_username rest db
          else if (db.dm_logs.find? (liveFor a.id commenter_id)).isSome then
            processAutomations now comment_id comment_text commenter_id commenter_username rest db
          else
            let newLog : DMLog :=
              newDMLog db.next_dm_id a comment_id comment_text commenter_id commenter_username kw
            let db1 : DB := { db with dm_logs := db.dm_logs ++ [newLog],
                                      next_dm_id := db.next_dm_id + 1 }
            let db2 := db1.updateAutomation a.id (fun x =>
              { x with total_comments_processed := x.total_comments_processed + 1,
                       total_dms_pending := x.total_dms_pending + 1 })
            match processAutomations now comment_id comment_text commenter_id
                commenter_username rest db2 with
            | (db3, queued, ok) => (db3, newLog.id :: queued, ok)

/-- `process_comment_webhook` (`src/app/instagram/webhooks.py:149`): guard the
required fields by Python truthiness, load the active automations on the
media, and run the match/dedup/create loop.  Returns the committed state,
the `DMLog` ids enqueued for the worker, and whether processing finished
without raising. -/
def process_comment_webhook (db : DB) (now : Int) (comment_id : Option String)
    (comment_text : String) (media_id : Option String)
    (commenter_id : Option String) (commenter_username : Option String) :
    DB × List Nat × Bool :=
  match comment_id, media_id, commenter_id with
  | some cid, some mid, some cuid =>
      if cid == "" || mid == "" || cuid == "" then (db, [], true)
      else
        let autos := db.automations.filter fun a =>
          a.instagram_media_id == some mid && a.status == AutomationStatus.active
        processAutomations now cid comment_text cuid commenter_username autos db
  | _, _, _ => (db, [], true)

/-- The `changes` part of the per-entry processing in
`handle_instagram_webhook` (`src/app/instagram/webhooks.py:81`); the `some`
result carries the `str` of a raised exception. -/
def processChanges (now : Int) : List CommentChange → DB → DB × Option String
  | [], db => (db, none)
  | ch :: rest, db =>
    if ch.fieldName == "comments" then
      match ch.value with
      | none => (db, some "KeyError")
      | some v =>
        match process_comment_webhook db now v.id v.text v.media_id v.from_id v.from_username with
        | (db1, _, true) => processChanges now rest db1
        | (db1, _, false) => (db1, some "AttributeError")
    else processChanges now rest db

/-- The event loop of `handle_instagram_webhook`
(`src/app/instagram/webhooks.py:70`): entries processed in order inside one
`try`, a raised exception aborting the remaining entries. -/
def processEntries (now : Int) : List WebhookEntry → DB → DB × Option String
  | [], db => (db, none)
  | e :: rest, db =>
    match processChanges now e.changes db with
    | (db1, none) => processEntries now rest db1
    | (db1, some m) => (db1, some m)

/-- The HTTP responses the webhook handler can produce. -/
inductive WebhookResponse where
  /-- `HTTPException(403)` for a bad signature. -/
  | forbidden
  /-- `HTTPException(400)` for a body that is not valid JSON. -/
  | badRequest
  /-- The `{"status": "received"}` success acknowledgment. -/
  | received
deriving DecidableEq, Repr

/-- The raw-payload audit row written before any processing
(`src/app/instagram/webhooks.py:61`). -/
def auditLog (db : DB) (entries : List WebhookEntry) : WebhookLog :=
  { id := db.next_webhook_id, webhook_type := "instagram_event",
    payload := entries, processed := false, error_message := none }

/-- The database after committing the audit row. -/
def dbWithAudit (db : DB) (entries : List WebhookEntry) : DB :=
  { db with webhook_logs := db.webhook_logs ++ [auditLog db entries],
            next_webhook_id := db.next_webhook_id + 1 }

/-- `handle_instagram_webhook` (`src/app/instagram/webhooks.py:39`): verify
the signature (403 on failure, before any database write), parse the body
(`payload?` is the outcome of `json.loads`; 400 on failure, before any
database write), persist a `WebhookLog` audit row, then process every entry
inside a `try` whose handler records the error on the audit row and still
acknowledges. -/
def handle_instagram_webhook (db : DB) (now : Int) (hmacHex : String → String)
    (body : String) (signature : String)
    (payload? : Option (List WebhookEntry)) : DB × WebhookResponse :=
  if !(verify_webhook_signature hmacHex body signature) then
    (db, .forbidden)
  else
    match payload? with
    | none => (db, .badRequest)
    | some entries =>
      let log0 : WebhookLog := auditLog db entries
      let db1 : DB := dbWithAudit db entries
      match processEntries now entries db1 with
      | (db2, none) =>
          (db2.updateWebhookLog log0.id (fun l => { l with processed := true }), .received)
      | (db2, some m) =>
          (db2.updateWebhookLog log0.id (fun l => { l with error_message := some m }), .received)

/-! Concrete states used to evaluate the pipeline at specific inputs. -/

/-- A stand-in digest function for concrete evaluation; the real HMAC-SHA256
is abstracted as a function parameter throughout. -/
def hmacStub : String → String := fun _ => "ab"

/-- The empty database. -/
def db0 : DB :=
  { users := [], automations := [], dm_logs := [], trackers := [],
    webhook_logs := [], next_dm_id := 1, next_webhook_id := 1 }

/-- An entitled user (active account, trial running until `t = 100`) with a
connected Instagram account. -/
def egUser : User :=
  { id := 1, is_active := true, subscription_status := .trial,
    trial_end_date := 100, subscription_end_date := 0,
    encrypted_access_token := some "tok" }

/-- The same user after the trial expired relative to `now = 50`. -/
def egUserExpired : User :=
  { egUser with trial_end_date := 20 }

/-- An active automation of `egUser` on media `"m1"`, keyword `"price"`. -/
def egAutomation : Automation :=
  { id := 1, user_id := 1, instagram_media_id := some "m1",
    keywords := ["price"], case_sensitive := false, message_text := "hello",
    message_media_url := none, comment_reply_options := [], status := .active,
    total_comments_processed := 1, total_dms_sent := 1, total_dms_failed := 0,
    total_dms_pending := 0 }

/-- A DispatchRecord of `egAutomation` for commenter `"c9"` on comment
`"cm1"`, already sent. -/
def egSentLog : DMLog :=
  { id := 1, user_id := 1, automation_id := 1,
    instagram_commenter_id := "c9", instagram_commenter_username := none,
    comment_id := some "cm1", comment_text := "price here",
    matched_keyword := some "price", dm_status := .sent,
    message_sent := "hello", instagram_message_id := some "m0",
    error_message := none, retry_count := 0, sent_at := some 10, failed_at := none }

/-- The same DispatchRecord still pending. -/
def egPendingLog : DMLog :=
  { egSentLog with dm_status := .pending, instagram_message_id := none, sent_at := none }

/-- A database whose only DispatchRecord is already `sent` (terminal). -/
def dbSent : DB :=
  { db0 with users := [egUser], automations := [egAutomation],
             dm_logs := [egSentLog], next_dm_id := 2 }

/-- A database whose only DispatchRecord is `pending` with `retry_count = 0`. -/
def dbPending : DB :=
  { db0 with users := [egUser],
             automations := [{ egAutomation with total_dms_sent := 0, total_dms_pending := 1 }],
             dm_logs := [egPendingLog], next_dm_id := 2 }

/-- Like `dbPending`, but a second automation (of the same user, on the same
comment) already got its DispatchRecord `sent`: the setting of the global
duplicate guard. -/
def dbDup : DB :=
  { dbPending with
      automations := [{ egAutomation with total_dms_sent := 0, total_dms_pending := 1 },
                      { egAutomation with id := 2, total_dms_pending := 0 }],
      dm_logs := [egPendingLog, { egSentLog with id := 2, automation_id := 2 }],
      next_dm_id := 3 }

/-- Like `dbPending` but the owning user's trial has expired at `now = 50`. -/
def dbExpired : DB :=
  { dbPending with users := [egUserExpired] }

/-- Like `dbPending` but the user's active `dm_send` window has reached the
daily ceiling. -/
def dbLimited : DB :=
  { dbPending with trackers := [{ id := 7, user_id := 1, action_type := "dm_send",
                                  count := 100, window_start := 0, window_end := 1000 }] }

/-- A database holding a huge counter for a non-`dm_send` action kind. -/
def dbOtherAction : DB :=
  { db0 with users := [egUser],
             trackers := [{ id := 8, user_id := 1, action_type := "api_call",
                            count := 1000000, window_start := 0, window_end := 1000 }] }

/-- An active (non-expired) `dm_send` rate window of a user: the filter of
`check_rate_limit` stated as a predicate. -/
def activeWindow (uid : Nat) (now : Int) (t : RateLimitTracker) : Prop :=
  t.user_id = uid ∧ t.action_type = "dm_send" ∧ now < t.window_end

instance (uid : Nat) (now : Int) (t : RateLimitTracker) :
    Decidable (activeWindow uid now t) := by
  unfold activeWindow
  infer_instance

/-! General lemmas about the list-level primitives of the embedding. -/

theorem isPrefixOf_iff : ∀ (l1 l2 : List Char),
    l1.isPrefixOf l2 = true ↔ ∃ t, l2 = l1 ++ t
  | [], l2 => by simp [List.isPrefixOf]
  | _ :: _, [] => by simp [List.isPrefixOf]
  | a :: as, b :: bs => by
      simp only [List.isPrefixOf, Bool.and_eq_true, beq_iff_eq,
        isPrefixOf_iff as bs, List.cons_append, List.cons.injEq]
      constructor
      · rintro ⟨rfl, t, rfl⟩
        exact ⟨t, rfl, rfl⟩
      · rintro ⟨t, rfl, rfl⟩
        exact ⟨rfl, t, rfl⟩

/-- `listContains` is exactly Python's contiguous-substring test. -/
theorem listContains_iff (needle : List Char) :
    ∀ haystack : List Char,
      listContains needle haystack = true ↔ ∃ s t, haystack = s ++ needle ++ t
  | [] => by
      simp only [listContains, List.isEmpty_iff]
      constructor
      · rintro rfl
        exact ⟨[], [], rfl⟩
      · rintro ⟨s, t, h⟩
        have h2 := h.symm
        simp only [List.append_assoc, List.append_eq_nil] at h2
        exact h2.2.1
  | c :: rest => by
      simp only [listContains, Bool.or_eq_true, isPrefixOf_iff,
        listContains_iff needle rest]
      constructor
      · rintro (⟨t, h⟩ | ⟨s, t, h⟩)
        · exact ⟨[], t, by simpa using h⟩
        · exact ⟨c :: s, t, by simp [h]⟩
      · rintro ⟨s, t, h⟩
        cases s with
        | nil => exact Or.inl ⟨t, by simpa using h⟩
        | cons c2 s2 =>
            simp only [List.cons_append, List.cons.injEq, List.append_assoc] at h
            exact Or.inr ⟨s2, t, by simp [h.2]⟩

/-- The key of a row is invariant under a key-preserving conditional update. -/
theorem key_update_comp {α : Type} (key : α → Nat) (i j : Nat) (f : α → α)
    (hf : ∀ x, key (f x) = key x) :
    ((fun x => key x == j) ∘ fun x => if key x == i then f x else x)
      = fun x => key x == j := by
  funext x
  by_cases h : key x = i
  · simp [h, hf]
  · simp [h]

/-- Updating the rows with key `i` rewrites the first hit of a lookup for
key `i`, provided the update preserves the key. -/
theorem find?_update_eq {α : Type} (key : α → Nat) (i : Nat) (f : α → α)
    (hf : ∀ x, key (f x) = key x) (l : List α) :
    ((l.map fun x => if key x == i then f x else x).find? fun x => key x == i)
      = ((l.find? fun x => key x == i).map f) := by
  rw [List.find?_map, key_update_comp key i i f hf]
  cases hfind : l.find? fun x => key x == i with
  | none => rfl
  | some a =>
      have ha : key a = i := by simpa using List.find?_some hfind
      simp [ha]

/-- A lookup for a key other than the updated one is unchanged. -/
theorem find?_update_ne {α : Type} (key : α → Nat) (i j : Nat) (f : α → α)
    (hf : ∀ x, key (f x) = key x) (hij : ¬ j = i) (l : List α) :
    ((l.map fun x => if key x == i then f x else x).find? fun x => key x == j)
      = (l.find? fun x => key x == j) := by
  rw [List.find?_map, key_update_comp key i j f hf]
  cases hfind : l.find? fun x => key x == j with
  | none => rfl
  | some a =>
      have ha : key a = j := by simpa using List.find?_some hfind
      have : ¬ key a = i := fun hc => hij (ha ▸ hc ▸ rfl)
      simp [this]

/-- Filtering on a key other than the updated one is unchanged. -/
theorem filter_update_ne {α : Type} (key : α → Nat) (i j : Nat) (f : α → α)
    (hf : ∀ x, key (f x) = key x) (hij : ¬ j = i) (l : List α) :
    ((l.map fun x => if key x == i then f x else x).filter fun x => key x == j)
      = (l.filter fun x => key x == j) := by
  rw [List.filter_map, key_update_comp key i j f hf]
  have : ∀ a ∈ l.filter (fun x => key x == j),
      (if key a == i then f a else a) = a := by
    intro a ha
    have haj : key a = j := by simpa using (List.mem_filter.mp ha).2
    have : ¬ key a = i := fun hc => hij (haj ▸ hc ▸ rfl)
    simp [this]
  rw [List.map_congr_left this, List.map_id']

/-- Updating the rows with a key that only the appended row carries rewrites
exactly that row. -/
theorem map_update_append_fresh {α : Type} (key : α → Nat) (i : Nat) (f : α → α)
    (x : α) (hx : key x = i) :
    ∀ l : List α, (∀ y ∈ l, ¬ key y = i) →
      ((l ++ [x]).map fun y => if key y == i then f y else y) = l ++ [f x]
  | [], _ => by simp [hx]
  | y :: ys, h => by
      have hy : ¬ key y = i := h y (by simp)
      simp only [List.cons_append, List.map_cons, List.cons.injEq]
      refine ⟨by simp [hy], ?_⟩
      exact map_update_append_fresh key i f x hx ys fun z hz => h z (by simp [hz])

/-! Frame lemmas: the comment-processing loop touches only automations,
dispatch records and the dispatch id counter. -/

theorem processAutomations_frame (now : Int) (cid ctext cuid : String)
    (cuname : Option String) :
    ∀ (autos : List Automation) (db : DB),
      (processAutomations now cid ctext cuid cuname autos db).1.users = db.users ∧
      (processAutomations now cid ctext cuid cuname autos db).1.webhook_logs = db.webhook_logs ∧
      (processAutomations now cid ctext cuid cuname autos db).1.next_webhook_id = db.next_webhook_id
  | [], _ => ⟨rfl, rfl, rfl⟩
  | a :: rest, db => by
      simp only [processAutomations]
      split
      · exact ⟨rfl, rfl, rfl⟩
      · split
        · exact processAutomations_frame now cid ctext cuid cuname rest _
        · split
          · exact processAutomations_frame now cid ctext cuid cuname rest db
          · split
            · exact processAutomations_frame now cid ctext cuid cuname rest db
            · split
              · exact processAutomations_frame now cid ctext cuid cuname rest db
              · exact processAutomations_frame now cid ctext cuid cuname rest _

theorem process_comment_webhook_frame (db : DB) (now : Int) (cid? : Option String)
    (ctext : String) (mid? cuid? cuname : Option String) :
    (process_comment_webhook db now cid? ctext mid? cuid? cuname).1.users = db.users ∧
    (process_comment_webhook db now cid? ctext mid? cuid? cuname).1.webhook_logs = db.webhook_logs ∧
    (process_comment_webhook db now cid? ctext mid? cuid? cuname).1.next_webhook_id = db.next_webhook_id := by
  unfold process_comment_webhook
  split
  · split
    · exact ⟨rfl, rfl, rfl⟩
    · exact processAutomations_frame now _ ctext _ cuname _ db
  · exact ⟨rfl, rfl, rfl⟩

theorem processChanges_frame (now : Int) :
    ∀ (chs : List CommentChange) (db : DB),
      (processChanges now chs db).1.webhook_logs = db.webhook_logs ∧
      (processChanges now chs db).1.next_webhook_id = db.next_webhook_id
  | [], _ => ⟨rfl, rfl⟩
  | ch :: rest, db => by
      simp only [processChanges]
      split
      · split
        · exact ⟨rfl, rfl⟩
        next v heqv =>
          split
          next db1 q heq =>
            have hf := process_comment_webhook_frame db now v.id v.text
              v.media_id v.from_id v.from_username
            rw [heq] at hf
            have ih := processChanges_frame now rest db1
            exact ⟨ih.1.trans hf.2.1, ih.2.trans hf.2.2⟩
          next db1 q heq =>
            have hf := process_comment_webhook_frame db now v.id v.text
              v.media_id v.from_id v.from_username
            rw [heq] at hf
            exact ⟨hf.2.1, hf.2.2⟩
      · exact processChanges_frame now rest db

theorem processEntries_frame (now : Int) :
    ∀ (entries : List WebhookEntry) (db : DB),
      (processEntries now entries db).1.webhook_logs = db.webhook_logs ∧
      (processEntries now entries db).1.next_webhook_id = db.next_webhook_id
  | [], _ => ⟨rfl, rfl⟩
  | e :: rest, db => by
      simp only [processEntries]
      split
      next db1 heq =>
        have hf := processChanges_frame now e.changes db
        rw [heq] at hf
        have ih := processEntries_frame now rest db1
        exact ⟨ih.1.trans hf.1, ih.2.trans hf.2⟩
      next db1 m heq =>
        have hf := processChanges_frame now e.changes db
        rw [heq] at hf
        exact ⟨hf.1, hf.2⟩

/-- When no other DispatchRecord of the same comment is `sent`, the global
duplicate guard of the worker finds nothing. -/
theorem dup_find_none (db : DB) (i : Nat) (r : DMLog)
    (hnodup : ∀ l ∈ db.dm_logs,
      ¬(¬ l.id = i ∧ l.comment_id = r.comment_id ∧ l.dm_status = DMStatus.sent))
    (cid : String) (hcid : r.comment_id = some cid) :
    (db.dm_logs.find? fun l =>
      l.comment_id == some cid && l.dm_status == DMStatus.sent && !(l.id == i)) = none := by
  rw [List.find?_eq_none]
  intro l hl hp
  simp only [Bool.and_eq_true, beq_iff_eq, Bool.not_eq_true',
    beq_eq_false_iff_ne, ne_eq] at hp
  exact hnodup l hl ⟨hp.2, by rw [hcid]; exact hp.1.1, hp.1.2⟩

/-- Invariant of the matching loop: while a live DispatchRecord for
`(A, commenter)` exists, and `A`'s owner resolves to an entitled user, no
iteration adds or changes a record of that pair and `A`'s row is untouched. -/
theorem processAutomations_noop_for (now : Int) (cid ctext cuid : String)
    (cuname : Option String) (A : Automation) (u : User)
    (hent : u.can_use_automation now = true) :
    ∀ (autos : List Automation) (db : DB),
      (∀ a ∈ autos, a.id = A.id → a = A) →
      ((db.users.find? fun x => x.id == A.user_id) = some u) →
      (∃ l ∈ db.dm_logs, liveFor A.id cuid l = true) →
      ((processAutomations now cid ctext cuid cuname autos db).1.dm_logs.filter (logFor A.id cuid)
          = db.dm_logs.filter (logFor A.id cuid) ∧
        ((processAutomations now cid ctext cuid cuname autos db).1.automations.filter fun a => a.id == A.id)
          = (db.automations.filter fun a => a.id == A.id))
  | [], _, _, _, _ => ⟨rfl, rfl⟩
  | a :: rest, db, huniq, howner, hlive => by
      have huniqRest : ∀ x ∈ rest, x.id = A.id → x = A :=
        fun x hx => huniq x (by simp [hx])
      simp only [processAutomations]
      split
      · exact ⟨rfl, rfl⟩
      next ua hua =>
        split
        next hnot =>
          -- entitlement failed: automation `a` gets disabled, so `a ≠ A`
          have hne : ¬ a.id = A.id := by
            intro he
            have haA : a = A := huniq a (by simp) he
            rw [haA, howner] at hua
            have huau : u = ua := by injection hua
            rw [← huau, hent] at hnot
            simp at hnot
          have ih := processAutomations_noop_for now cid ctext cuid cuname A u hent rest
            (db.updateAutomation a.id fun x => { x with status := .disabled })
            huniqRest howner hlive
          have hfu := filter_update_ne Automation.id a.id A.id
            (fun x => { x with status := AutomationStatus.disabled }) (fun _ => rfl)
            (fun h => hne h.symm) db.automations
          exact ⟨ih.1, ih.2.trans hfu⟩
        next hok =>
          split
          · exact processAutomations_noop_for now cid ctext cuid cuname A u hent rest db
              huniqRest howner hlive
          next kw hkw =>
            split
            · exact processAutomations_noop_for now cid ctext cuid cuname A u hent rest db
                huniqRest howner hlive
            split
            · exact processAutomations_noop_for now cid ctext cuid cuname A u hent rest db
                huniqRest howner hlive
            next hnodedup =>
              -- insert branch: the dedup check found nothing, so `a ≠ A`
              have hne : ¬ a.id = A.id := by
                intro he
                obtain ⟨l, hl, hp⟩ := hlive
                apply hnodedup
                rw [List.find?_isSome]
                exact ⟨l, hl, by rw [he]; exact hp⟩
              have hlive2 : ∃ l ∈ db.dm_logs ++
                  [newDMLog db.next_dm_id a cid ctext cuid cuname kw],
                  liveFor A.id cuid l = true := by
                obtain ⟨l, hl, hp⟩ := hlive
                exact ⟨l, List.mem_append.mpr (Or.inl hl), hp⟩
              have ih := processAutomations_noop_for now cid ctext cuid cuname A u hent rest
                (({ db with dm_logs := db.dm_logs ++ [newDMLog db.next_dm_id a cid ctext cuid cuname kw],
                            next_dm_id := db.next_dm_id + 1 } : DB).updateAutomation a.id
                  fun x => { x with total_comments_processed := x.total_comments_processed + 1,
                                    total_dms_pending := x.total_dms_pending + 1 })
                huniqRest howner hlive2
              have hfu := filter_update_ne Automation.id a.id A.id
                (fun x => { x with total_comments_processed := x.total_comments_processed + 1,
                                   total_dms_pending := x.total_dms_pending + 1 })
                (fun _ => rfl) (fun h => hne h.symm) db.automations
              refine ⟨ih.1.trans ?_, ih.2.trans hfu⟩
              show (db.dm_logs ++ [newDMLog db.next_dm_id a cid ctext cuid cuname kw]).filter
                  (logFor A.id cuid) = db.dm_logs.filter (logFor A.id cuid)
              rw [List.filter_append]
              have hnew : logFor A.id cuid (newDMLog db.next_dm_id a cid ctext cuid cuname kw)
                  = false := by
                simp [logFor, newDMLog]
                intro he
                exact absurd he hne
              simp [hnew]

/-! Claim theorems. -/

/-- C9 (counterexample): the claim says empty text never matches, but
`check_keyword_match` on empty text with an empty keyword returns that
keyword, because Python's `"" in ""` is true. -/
theorem C9_counterexample : check_keyword_match "" [""] false = some "" := by
  decide

/-- C9 (amended): `check_keyword_match` is a pure function that case-folds
both text and keywords when `case_sensitive` is false, returns the first
keyword of the ordered sequence whose folded form is a contiguous substring
of the folded text, and returns none when no keyword matches or the sequence
is empty; empty text matches only an empty keyword, so with no empty keyword
present empty text never matches. -/
theorem C9_keyword_matcher_amended (text : String) (keywords : List String) (cs : Bool) :
    (check_keyword_match text keywords cs = none ↔
      ∀ k ∈ keywords, ¬ ∃ s t, foldCase cs text.data = s ++ foldCase cs k.data ++ t) ∧
    (∀ k, check_keyword_match text keywords cs = some k →
      k ∈ keywords ∧
      (∃ s t, foldCase cs text.data = s ++ foldCase cs k.data ++ t) ∧
      ∃ pre post, keywords = pre ++ k :: post ∧
        ∀ k2 ∈ pre, ¬ ∃ s t, foldCase cs text.data = s ++ foldCase cs k2.data ++ t) ∧
    (keywords = [] → check_keyword_match text keywords cs = none) ∧
    (text = "" → ¬ (("" : String) ∈ keywords) → check_keyword_match text keywords cs = none) := by
  refine ⟨?_, ?_, ?_, ?_⟩
  · simp [check_keyword_match, List.find?_eq_none, listContains_iff]
  · intro k hfind
    simp only [check_keyword_match] at hfind
    rw [List.find?_eq_some] at hfind
    obtain ⟨hpk, pre, post, heq, hall⟩ := hfind
    refine ⟨by rw [heq]; exact List.mem_append.mpr (Or.inr (by simp)),
      (listContains_iff _ _).mp hpk, pre, post, heq, ?_⟩
    intro k2 hk2
    have hk2f := hall k2 hk2
    simp only [Bool.not_eq_true'] at hk2f
    rw [← listContains_iff]
    simp [hk2f]
  · intro h
    rw [h]
    rfl
  · intro ht hnk
    simp only [check_keyword_match]
    rw [List.find?_eq_none]
    intro k hk hp
    have hkne : ¬ k = "" := fun hc => hnk (hc ▸ hk)
    have hkd : ¬ k.data = [] := fun hc => hkne (String.ext (hc.trans rfl))
    have htd : text.data = [] := by rw [ht]
    rw [htd] at hp
    have hfold : foldCase cs ([] : List Char) = [] := by
      cases cs <;> simp [foldCase]
    rw [hfold] at hp
    have : foldCase cs k.data = [] := by
      have := (listContains_iff _ _).mp hp
      obtain ⟨s, t, hst⟩ := this
      have h2 := hst.symm
      simp only [List.append_assoc, List.append_eq_nil] at h2
      exact h2.2.1
    cases cs with
    | true => exact hkd (by simpa [foldCase] using this)
    | false => exact hkd (by simpa [foldCase] using this)

/-- C9 (witness): with keywords `["price", "buy"]` and case-insensitive
matching, `"What is the Price?"` matches, and the matched keyword `"price"`
occurs as a substring of the folded text. -/
theorem C9_witness :
    check_keyword_match "What is the Price?" ["price", "buy"] false = some "price" ∧
    ∃ s t, foldCase false "What is the Price?".data
      = s ++ foldCase false "price".data ++ t :=
  ⟨by decide,
   ((C9_keyword_matcher_amended "What is the Price?" ["price", "buy"] false).2.1
     "price" (by decide)).2.1⟩

/-- C10: for every action kind other than `"dm_send"`, `check_rate_limit`
returns true unconditionally — no window count ever blocks such an action. -/
theorem C10_only_dm_send_rate_limited (uid : Nat) (action : String) (db : DB)
    (now : Int) (h : ¬ action = "dm_send") :
    check_rate_limit uid action db now = true := by
  unfold check_rate_limit
  rw [if_neg (by simpa using h)]

/-- C10 (witness): an `"api_call"` window with a count of one million does
not block the `"api_call"` action. -/
theorem C10_witness : check_rate_limit 1 "api_call" dbOtherAction 0 = true :=
  C10_only_dm_send_rate_limited 1 "api_call" dbOtherAction 0 (by decide)

/-- C6 (counterexample): the claim says any mismatch between the digest and
the signature supplied in the header fails closed, but
`signature.split("sha256=")[1]` keeps only the text up to the next
`sha256=` occurrence, so the header `sha256=absha256=x` verifies against
digest `ab` although the part of the header after the `sha256=` marker is
not the digest. -/
theorem C6_counterexample :
    verify_webhook_signature hmacStub "body" "sha256=absha256=x" = true ∧
    ¬ ("sha256=absha256=x".data.drop sigMarker.length = (hmacStub "body").data) := by
  decide

/-- C6 (amended): verification accepts exactly the headers that start with
`sha256=` and whose first `sha256=`-delimited segment equals the expected
HMAC hex digest (matching Python's `split`; trailing content after a second
`sha256=` marker is ignored).  A missing signature, a missing marker, or a
first-segment mismatch fails closed: the handler responds 403 and the
database — in particular the WebhookAuditRecord table — is untouched. -/
theorem C6_signature_verification_amended (hmacHex : String → String)
    (body sig : String) (db : DB) (now : Int)
    (payload? : Option (List WebhookEntry)) :
    (verify_webhook_signature hmacHex body sig = true ↔
      (sigMarker.isPrefixOf sig.data = true ∧
        takeUntilSep sigMarker (sig.data.drop sigMarker.length) = (hmacHex body).data)) ∧
    (verify_webhook_signature hmacHex body sig = false →
      handle_instagram_webhook db now hmacHex body sig payload? = (db, WebhookResponse.forbidden)) := by
  constructor
  · unfold verify_webhook_signature
    by_cases h : sigMarker.isPrefixOf sig.data = true
    · simp [h]
    · simp [h]
  · intro h
    unfold handle_instagram_webhook
    rw [h]
    rfl

/-- C6 (witness): a header without the `sha256=` marker is rejected with a
permission-denied response and the database is unchanged. -/
theorem C6_witness :
    handle_instagram_webhook db0 0 hmacStub "body" "nope" none
      = (db0, WebhookResponse.forbidden) :=
  (C6_signature_verification_amended hmacStub "body" "nope" db0 0 none).2 (by decide)

/-- C5 (counterexample): the claim says every signature-verified request is
acknowledged with success and parsing errors are recorded on the audit
record; but a signature-verified body that fails JSON parsing is answered
with a 400 error and no WebhookAuditRecord is created. -/
theorem C5_counterexample :
    verify_webhook_signature hmacStub "body" "sha256=ab" = true ∧
    handle_instagram_webhook db0 0 hmacStub "body" "sha256=ab" none
      = (db0, WebhookResponse.badRequest) := by
  decide

/-- C1: while a DispatchRecord for `(A, C)` with status pending or sent
exists, a further `process_comment_webhook` invocation for a comment by `C`
(on any media, with any text) creates no new DispatchRecord for `(A, C)`,
mutates none, and leaves `A`'s row (status and counters) unchanged — the
dedup step skips `A`, so at most one live record per pair can exist.
Hypotheses: `A`'s primary key is unique and `A`'s owner is still entitled
(an unentitled owner would make the pass disable `A`, which only reinforces
that no record is created). -/
theorem C1_at_most_one_live_dispatch (db : DB) (now : Int) (A : Automation)
    (u : User) (cid? : Option String) (ctext : String) (mid? : Option String)
    (cuid : String) (cuname : Option String)
    (h_uniq : ∀ a ∈ db.automations, a.id = A.id → a = A)
    (h_owner : (db.users.find? fun x => x.id == A.user_id) = some u)
    (h_ent : u.can_use_automation now = true)
    (h_live : ∃ l ∈ db.dm_logs, liveFor A.id cuid l = true) :
    ((process_comment_webhook db now cid? ctext mid? (some cuid) cuname).1.dm_logs.filter
        (logFor A.id cuid) = db.dm_logs.filter (logFor A.id cuid)) ∧
    (((process_comment_webhook db now cid? ctext mid? (some cuid) cuname).1.automations.filter
        fun a => a.id == A.id) = (db.automations.filter fun a => a.id == A.id)) := by
  cases cid? with
  | none => exact ⟨rfl, rfl⟩
  | some cid =>
    cases mid? with
    | none => exact ⟨rfl, rfl⟩
    | some mid =>
      have hred : process_comment_webhook db now (some cid) ctext (some mid) (some cuid) cuname
          = if cid == "" || mid == "" || cuid == "" then (db, [], true)
            else processAutomations now cid ctext cuid cuname
              (db.automations.filter fun a =>
                a.instagram_media_id == some mid && a.status == AutomationStatus.active) db := rfl
      rw [hred]
      by_cases hg : (cid == "" || mid == "" || cuid == "") = true
      · rw [if_pos hg]
        exact ⟨rfl, rfl⟩
      · rw [if_neg hg]
        exact processAutomations_noop_for now cid ctext cuid cuname A u h_ent
          (db.automations.filter fun a =>
            a.instagram_media_id == some mid && a.status == AutomationStatus.active)
          db (fun a ha => h_uniq a (List.mem_filter.mp ha).1) h_owner h_live

/-- C1 (witness): with the pending record of `dbPending` for automation 1
and commenter `"c9"` in place, processing a second matching comment by
`"c9"` adds no record for the pair and leaves the automation row unchanged. -/
theorem C1_witness :
    ((process_comment_webhook dbPending 50 (some "cm2") "the price?" (some "m1")
        (some "c9") none).1.dm_logs.filter (logFor 1 "c9")
      = dbPending.dm_logs.filter (logFor 1 "c9")) ∧
    (((process_comment_webhook dbPending 50 (some "cm2") "the price?" (some "m1")
        (some "c9") none).1.automations.filter fun a => a.id == 1)
      = (dbPending.automations.filter fun a => a.id == 1)) :=
  C1_at_most_one_live_dispatch dbPending 50
    { egAutomation with total_dms_sent := 0, total_dms_pending := 1 } egUser
    (some "cm2") "the price?" (some "m1") "c9" none
    (by decide) (by decide) (by decide) (by decide)

/-- C2: when another DispatchRecord of the same originating comment is
already `sent`, the dispatch task marks the current record `failed` with the
duplicate-suppressed reason, calls no Delivery Client method, and leaves the
automations table (hence every sent/failed/pending counter) and the rate
windows untouched. -/
theorem C2_duplicate_suppressed (db : DB) (i : Nat) (now : Int) (retries : Nat)
    (sr : SendResult) (rc : Nat) (r : DMLog) (cid : String)
    (hfind : (db.dm_logs.find? fun l => l.id == i) = some r)
    (hcid : r.comment_id = some cid) (hne : ¬ cid = "")
    (hdup : ((db.dm_logs.find? fun l =>
        l.comment_id == some cid && l.dm_status == DMStatus.sent && !(l.id == i)).isSome)) :
    process_comment_and_send_dm db i now retries sr rc =
      (db.updateLog i (fun l =>
        { l with dm_status := .failed,
                 error_message := some "Duplicate: DM already sent for this comment",
                 failed_at := some now }), .completed, []) ∧
    (process_comment_and_send_dm db i now retries sr rc).1.automations = db.automations ∧
    (process_comment_and_send_dm db i now retries sr rc).1.trackers = db.trackers ∧
    (process_comment_and_send_dm db i now retries sr rc).2.2 = [] := by
  obtain ⟨o, ho⟩ := Option.isSome_iff_exists.mp hdup
  have hce : (cid == "") = false := by simpa using hne
  have hmain : process_comment_and_send_dm db i now retries sr rc =
      (db.updateLog i (fun l =>
        { l with dm_status := .failed,
                 error_message := some "Duplicate: DM already sent for this comment",
                 failed_at := some now }), .completed, []) := by
    have hce2 : ¬ ((cid == "") = true) := by simp [hne]
    simp only [process_comment_and_send_dm, hfind, hcid, if_neg hce2, ho]
  refine ⟨hmain, ?_, ?_, ?_⟩ <;> (rw [hmain]; try rfl)

/-- C2 (witness): in `dbDup` the second automation's record for comment
`"cm1"` is already sent, so dispatching the pending record 1 resolves it to
`failed` with the duplicate reason, without touching counters and without
calling the Delivery Client. -/
theorem C2_witness :
    process_comment_and_send_dm dbDup 1 50 0 (SendResult.ok none) 0 =
      (dbDup.updateLog 1 (fun l =>
        { l with dm_status := .failed,
                 error_message := some "Duplicate: DM already sent for this comment",
                 failed_at := some (50 : Int) }), .completed, []) :=
  (C2_duplicate_suppressed dbDup 1 50 0 (SendResult.ok none) 0 egPendingLog "cm1"
    (by decide) (by decide) (by decide) (by decide)).1

/-- C7: dispatching a pending DispatchRecord whose owning user is no longer
entitled (and that is not a duplicate) marks the record `failed` with the
entitlement-lost reason (`"Subscription expired"`), increments the owning
automation's failed counter, decrements its pending counter, performs no
Delivery Client call, and schedules no retry. -/
theorem C7_entitlement_lost (db : DB) (i : Nat) (now : Int) (retries : Nat)
    (sr : SendResult) (rc : Nat) (r : DMLog) (u : User) (a : Automation)
    (hfind : (db.dm_logs.find? fun l => l.id == i) = some r)
    (hpend : r.dm_status = DMStatus.pending)
    (hnodup : ∀ l ∈ db.dm_logs,
      ¬(¬ l.id = i ∧ l.comment_id = r.comment_id ∧ l.dm_status = DMStatus.sent))
    (huser : (db.users.find? fun x => x.id == r.user_id) = some u)
    (hauto : (db.automations.find? fun x => x.id == r.automation_id) = some a)
    (hent : u.can_use_automation now = false) :
    process_comment_and_send_dm db i now retries sr rc =
      ((db.updateLog i (fun l =>
          { l with dm_status := .failed, error_message := some "Subscription expired",
                   failed_at := some now })).updateAutomation r.automation_id
        (fun x => { x with total_dms_failed := x.total_dms_failed + 1,
                           total_dms_pending := x.total_dms_pending - 1 }),
       .completed, []) ∧
    ((process_comment_and_send_dm db i now retries sr rc).1.automations.find?
        fun x => x.id == r.automation_id)
      = some { a with total_dms_failed := a.total_dms_failed + 1,
                      total_dms_pending := a.total_dms_pending - 1 } ∧
    ((process_comment_and_send_dm db i now retries sr rc).1.dm_logs.find?
        fun l => l.id == i)
      = some { r with dm_status := .failed, error_message := some "Subscription expired",
                      failed_at := some now } := by
  have hmain : process_comment_and_send_dm db i now retries sr rc =
      ((db.updateLog i (fun l =>
          { l with dm_status := .failed, error_message := some "Subscription expired",
                   failed_at := some now })).updateAutomation r.automation_id
        (fun x => { x with total_dms_failed := x.total_dms_failed + 1,
                           total_dms_pending := x.total_dms_pending - 1 }),
       .completed, []) := by
    have hdupnone : (match r.comment_id with
        | some cid =>
            if cid == "" then (none : Option DMLog)
            else db.dm_logs.find? fun l =>
              l.comment_id == some cid && l.dm_status == DMStatus.sent && !(l.id == i)
        | none => none) = (none : Option DMLog) := by
      cases hc : r.comment_id with
      | none => rfl
      | some cid =>
          show (if cid == "" then (none : Option DMLog)
              else db.dm_logs.find? fun l =>
                l.comment_id == some cid && l.dm_status == DMStatus.sent && !(l.id == i))
            = none
          by_cases hce : cid = ""
          · simp [hce]
          · rw [if_neg (by simpa using hce)]
            exact dup_find_none db i r hnodup cid hc
    simp only [process_comment_and_send_dm, hfind, hdupnone, huser, hauto, hent,
      Bool.not_false, if_true]
  refine ⟨hmain, ?_, ?_⟩
  · rw [hmain]
    show ((db.automations.map fun x =>
        if x.id == r.automation_id then
          { x with total_dms_failed := x.total_dms_failed + 1,
                   total_dms_pending := x.total_dms_pending - 1 }
        else x).find? fun x => x.id == r.automation_id)
      = some { a with total_dms_failed := a.total_dms_failed + 1,
                      total_dms_pending := a.total_dms_pending - 1 }
    rw [find?_update_eq Automation.id r.automation_id
      (fun x => { x with total_dms_failed := x.total_dms_failed + 1,
                         total_dms_pending := x.total_dms_pending - 1 })
      (fun _ => rfl), hauto]
    rfl
  · rw [hmain]
    show ((db.dm_logs.map fun l =>
        if l.id == i then
          { l with dm_status := DMStatus.failed,
                   error_message := some "Subscription expired", failed_at := some now }
        else l).find? fun l => l.id == i)
      = some { r with dm_status := DMStatus.failed,
                      error_message := some "Subscription expired", failed_at := some now }
    rw [find?_update_eq DMLog.id i
      (fun l => { l with dm_status := DMStatus.failed,
                         error_message := some "Subscription expired", failed_at := some now })
      (fun _ => rfl), hfind]
    rfl

/-- C7 (witness): in `dbExpired` the pending record's owner has an expired
trial at `now = 50`; dispatch resolves it to `failed` with
`"Subscription expired"`, adjusting only the failed/pending counters. -/
theorem C7_witness :
    process_comment_and_send_dm dbExpired 1 50 0 (SendResult.ok none) 0 =
      ((dbExpired.updateLog 1 (fun l =>
          { l with dm_status := .failed, error_message := some "Subscription expired",
                   failed_at := some (50 : Int) })).updateAutomation 1
        (fun x => { x with total_dms_failed := x.total_dms_failed + 1,
                           total_dms_pending := x.total_dms_pending - 1 }),
       .completed, []) :=
  (C7_entitlement_lost dbExpired 1 50 0 (SendResult.ok none) 0 egPendingLog
    egUserExpired { egAutomation with total_dms_sent := 0, total_dms_pending := 1 }
    (by decide) (by decide) (by decide) (by decide) (by decide) (by decide)).1

/-- C3 (violation witness): the worker never checks the record's own
terminal status, so re-executing dispatch on the already-`sent` record of
`dbSent` calls the Delivery Client again, re-sends the DM, bumps the sent
counter to 2 and drives the pending counter to -1 — re-execution is not
idempotent, contradicting the claim the spec states about the code. -/
theorem C3_reexecution_not_idempotent :
    (process_comment_and_send_dm dbSent 1 50 0 (SendResult.ok (some "m2")) 0).2.2
      = [ClientCall.sendMessage "c9" "hello" none (some "cm1")] ∧
    ((process_comment_and_send_dm dbSent 1 50 0 (SendResult.ok (some "m2")) 0).1.automations.find?
        fun a => a.id == 1)
      = some { egAutomation with total_dms_sent := 2, total_dms_pending := -1 } ∧
    ((process_comment_and_send_dm dbSent 1 50 0 (SendResult.ok (some "m2")) 0).1.dm_logs.find?
        fun l => l.id == 1)
      = some { egSentLog with instagram_message_id := some "m2", sent_at := some (50 : Int) } := by
  decide

/-- C4 (violation witness): a delivery failure raises `self.retry` from the
inner `except`; the task's outer `except` rolls the session back before
re-raising, so the `failed` status, the `retry_count` increment and the
counter updates are never committed.  Each of the first three executions
leaves `dbPending` unchanged and reschedules with a constant 300 s delay
(not 300 s × retry count); the fourth execution, with Celery's retry budget
(`max_retries = 3`) exhausted, re-raises the send error and the record is
still `pending` with `retry_count = 0` — it never reaches terminal `failed`
with `retry_count = 3`. -/
theorem C4_retry_rollback_bug :
    process_comment_and_send_dm dbPending 1 50 0 (SendResult.err "boom") 0
      = (dbPending, Outcome.retry 300, [ClientCall.sendMessage "c9" "hello" none (some "cm1")]) ∧
    process_comment_and_send_dm dbPending 1 50 1 (SendResult.err "boom") 0
      = (dbPending, Outcome.retry 300, [ClientCall.sendMessage "c9" "hello" none (some "cm1")]) ∧
    process_comment_and_send_dm dbPending 1 50 2 (SendResult.err "boom") 0
      = (dbPending, Outcome.retry 300, [ClientCall.sendMessage "c9" "hello" none (some "cm1")]) ∧
    process_comment_and_send_dm dbPending 1 50 3 (SendResult.err "boom") 0
      = (dbPending, Outcome.error "boom", [ClientCall.sendMessage "c9" "hello" none (some "cm1")]) := by
  decide

/-- C8 (counterexample): the claim says a dispatch job blocked by `allow` is
deferred for retry after a fixed one-hour delay, but rate-limit deferrals
consume the task's own retry budget (`max_retries = 3`): at the fourth
blocked execution (`self.request.retries = 3`) `self.retry(countdown=3600)`
raises `MaxRetriesExceededError`, so the job dies undeferred and the record
is stuck pending forever. -/
theorem C8_counterexample :
    check_rate_limit 1 "dm_send" dbLimited 50 = false ∧
    process_comment_and_send_dm dbLimited 1 50 3 (SendResult.ok none) 0
      = (dbLimited, Outcome.maxRetriesExceeded, []) := by
  decide

/-- C8 (amended): with at most one active window per user (the data-model
invariant), `allow` for `"dm_send"` is false exactly when an active window
with `count ≥ DM_RATE_LIMIT_PER_DAY = 100` exists; with no active window it
is true unconditionally (fails open).  A dispatch job blocked by `allow`
never mutates the database (in particular the DispatchRecord is not marked
failed): while Celery's retry budget (`max_retries = 3`) is not exhausted it
is deferred for exactly 3600 seconds, and at the fourth blocked execution
`self.retry` raises `MaxRetriesExceededError` instead, killing the job with
the record left pending. -/
theorem C8_rate_limit (db : DB) (now : Int) (uid : Nat)
    (h_uniq : ∀ t ∈ db.trackers, ∀ t2 ∈ db.trackers,
      activeWindow uid now t → activeWindow uid now t2 → t = t2) :
    (check_rate_limit uid "dm_send" db now = false ↔
      ∃ t ∈ db.trackers, activeWindow uid now t ∧ DM_RATE_LIMIT_PER_DAY ≤ t.count) ∧
    ((∀ t ∈ db.trackers, ¬ activeWindow uid now t) →
      check_rate_limit uid "dm_send" db now = true) ∧
    (∀ (i retries rc : Nat) (sr : SendResult) (r : DMLog) (u : User),
      (db.dm_logs.find? fun l => l.id == i) = some r →
      (∀ l ∈ db.dm_logs,
        ¬(¬ l.id = i ∧ l.comment_id = r.comment_id ∧ l.dm_status = DMStatus.sent)) →
      ((db.users.find? fun x => x.id == r.user_id) = some u) →
      u.can_use_automation now = true →
      check_rate_limit u.id "dm_send" db now = false →
      process_comment_and_send_dm db i now retries sr rc
        = (db, if retries < 3 then Outcome.retry 3600 else Outcome.maxRetriesExceeded, [])) := by
  have hbeq : ∀ t : RateLimitTracker,
      ((t.user_id == uid && t.action_type == "dm_send" && decide (now < t.window_end)) = true)
        ↔ activeWindow uid now t := by
    intro t
    simp [activeWindow, and_assoc]
  refine ⟨?_, ?_, ?_⟩
  · unfold check_rate_limit
    rw [if_pos (by decide : ("dm_send" == "dm_send") = true)]
    cases hf : db.trackers.find? fun t =>
        t.user_id == uid && t.action_type == "dm_send" && decide (now < t.window_end) with
    | none =>
        simp only [Bool.true_eq_false, false_iff]
        rintro ⟨t, ht, hact, hcount⟩
        rw [List.find?_eq_none] at hf
        exact hf t ht ((hbeq t).mpr hact)
    | some t0 =>
        have hp := List.find?_some hf
        have hm := List.mem_of_find?_eq_some hf
        have ht0act : activeWindow uid now t0 := (hbeq t0).mp hp
        have ht0mem : t0 ∈ db.trackers := hm
        constructor
        · intro hfalse
          have hfalse2 : (!decide (DM_RATE_LIMIT_PER_DAY ≤ t0.count)) = false := hfalse
          refine ⟨t0, ht0mem, ht0act, ?_⟩
          by_contra hlt
          simp [hlt] at hfalse2
        · rintro ⟨t, ht, hact, hcount⟩
          have : t = t0 := h_uniq t ht t0 ht0mem hact ht0act
          subst this
          show (!decide (DM_RATE_LIMIT_PER_DAY ≤ t.count)) = false
          simp [hcount]
  · intro hno
    unfold check_rate_limit
    rw [if_pos (by decide : ("dm_send" == "dm_send") = true)]
    cases hf : db.trackers.find? fun t =>
        t.user_id == uid && t.action_type == "dm_send" && decide (now < t.window_end) with
    | none => rfl
    | some t0 =>
        have hp := List.find?_some hf
        have hm := List.mem_of_find?_eq_some hf
        exact absurd ((hbeq t0).mp hp) (hno t0 hm)
  · intro i retries rc sr r u hfind hnodup huser hent hlimit
    have hdupnone : (match r.comment_id with
        | some cid =>
            if cid == "" then (none : Option DMLog)
            else db.dm_logs.find? fun l =>
              l.comment_id == some cid && l.dm_status == DMStatus.sent && !(l.id == i)
        | none => none) = (none : Option DMLog) := by
      cases hc : r.comment_id with
      | none => rfl
      | some cid =>
          show (if cid == "" then (none : Option DMLog)
              else db.dm_logs.find? fun l =>
                l.comment_id == some cid && l.dm_status == DMStatus.sent && !(l.id == i))
            = none
          by_cases hce : cid = ""
          · simp [hce]
          · rw [if_neg (by simpa using hce)]
            exact dup_find_none db i r hnodup cid hc
    simp only [process_comment_and_send_dm, hfind, hdupnone, huser, hent, hlimit,
      Bool.not_true, Bool.false_eq_true, if_false, Bool.not_false, if_true,
      retryOutcome]

/-- C8 (witness): in `dbLimited` the active window of user 1 holds
`count = 100`, so `allow` is false and dispatching the pending record within
the retry budget is deferred for 3600 seconds with the database unchanged. -/
theorem C8_witness :
    check_rate_limit 1 "dm_send" dbLimited 50 = false ∧
    process_comment_and_send_dm dbLimited 1 50 0 (SendResult.ok none) 0
      = (dbLimited, Outcome.retry 3600, []) :=
  ⟨(C8_rate_limit dbLimited 50 1 (by decide)).1.mpr
      ⟨{ id := 7, user_id := 1, action_type := "dm_send", count := 100,
         window_start := 0, window_end := 1000 }, by decide, by decide, by decide⟩,
   (C8_rate_limit dbLimited 50 1 (by decide)).2.2 1 0 0 (SendResult.ok none)
     egPendingLog egUser (by decide) (by decide) (by decide) (by decide)
     (by decide)⟩

/-- C5 (amended): once the signature verifies and the body parses as JSON,
the handler always acknowledges with the success payload; exactly one
WebhookAuditRecord is appended, holding the parsed payload, and it is either
marked processed or carries the recorded processing error — errors never
propagate to the sender.  A signature-verified body that fails JSON parsing
is instead rejected with 400 and no audit record is written.  (`hfresh` is
the freshness of the autoincremented audit primary key.) -/
theorem C5_always_ack_amended (db : DB) (now : Int) (hmacHex : String → String)
    (body sig : String) (entries : List WebhookEntry)
    (hsig : verify_webhook_signature hmacHex body sig = true)
    (hfresh : ∀ l ∈ db.webhook_logs, ¬ l.id = db.next_webhook_id) :
    (handle_instagram_webhook db now hmacHex body sig (some entries)).2
      = WebhookResponse.received ∧
    (∃ lg : WebhookLog,
      (handle_instagram_webhook db now hmacHex body sig (some entries)).1.webhook_logs
        = db.webhook_logs ++ [lg] ∧
      lg.payload = entries ∧
      ((lg.processed = true ∧ lg.error_message = none) ∨
        (lg.processed = false ∧ (lg.error_message).isSome = true))) ∧
    handle_instagram_webhook db now hmacHex body sig none
      = (db, WebhookResponse.badRequest) := by
  have hcond : ¬ ((!verify_webhook_signature hmacHex body sig) = true) := by
    rw [hsig]
    simp
  have hred : handle_instagram_webhook db now hmacHex body sig (some entries)
      = (match processEntries now entries (dbWithAudit db entries) with
         | (db2, none) =>
             (db2.updateWebhookLog db.next_webhook_id (fun l => { l with processed := true }),
              WebhookResponse.received)
         | (db2, some m) =>
             (db2.updateWebhookLog db.next_webhook_id (fun l => { l with error_message := some m }),
              WebhookResponse.received)) := by
    unfold handle_instagram_webhook
    rw [if_neg hcond]
    rfl
  have hframe := processEntries_frame now entries (dbWithAudit db entries)
  refine ⟨?_, ?_, ?_⟩
  · rw [hred]
    cases hpe : processEntries now entries (dbWithAudit db entries) with
    | mk db2 res =>
        cases res with
        | none => rfl
        | some m => rfl
  · rw [hred]
    cases hpe : processEntries now entries (dbWithAudit db entries) with
    | mk db2 res =>
        rw [hpe] at hframe
        have hlogs : db2.webhook_logs = db.webhook_logs ++ [auditLog db entries] := hframe.1
        cases res with
        | none =>
            refine ⟨{ id := db.next_webhook_id, webhook_type := "instagram_event",
                      payload := entries, processed := true, error_message := none },
                    ?_, rfl, Or.inl ⟨rfl, rfl⟩⟩
            show (db2.webhook_logs.map fun l =>
                if l.id == db.next_webhook_id then { l with processed := true } else l)
              = _
            rw [hlogs]
            exact map_update_append_fresh WebhookLog.id db.next_webhook_id
              (fun l => { l with processed := true }) _ rfl db.webhook_logs hfresh
        | some m =>
            refine ⟨{ id := db.next_webhook_id, webhook_type := "instagram_event",
                      payload := entries, processed := false, error_message := some m },
                    ?_, rfl, Or.inr ⟨rfl, rfl⟩⟩
            show (db2.webhook_logs.map fun l =>
                if l.id == db.next_webhook_id then { l with error_message := some m } else l)
              = _
            rw [hlogs]
            exact map_update_append_fresh WebhookLog.id db.next_webhook_id
              (fun l => { l with error_message := some m }) _ rfl db.webhook_logs hfresh
  · unfold handle_instagram_webhook
    rw [if_neg hcond]

/-- C5 (witness): a signature-verified, parseable body is acknowledged with
success and an audit record is appended, while the same body failing JSON
parsing yields 400 and no record. -/
theorem C5_witness :
    (handle_instagram_webhook db0 0 hmacStub "body" "sha256=ab" (some [])).2
      = WebhookResponse.received ∧
    (∃ lg : WebhookLog,
      (handle_instagram_webhook db0 0 hmacStub "body" "sha256=ab" (some [])).1.webhook_logs
        = db0.webhook_logs ++ [lg] ∧
      lg.payload = ([] : List WebhookEntry) ∧
      ((lg.processed = true ∧ lg.error_message = none) ∨
        (lg.processed = false ∧ (lg.error_message).isSome = true))) ∧
    handle_instagram_webhook db0 0 hmacStub "body" "sha256=ab" none
      = (db0, WebhookResponse.badRequest) :=
  C5_always_ack_amended db0 0 hmacStub "body" "sha256=ab" [] (by decide) (by decide)

end Dmtest
